import Mathlib

/-!
Shallow embedding of the MedScribe transcription front-end
(src/App.tsx together with the service module and src/types.ts).

The component state consists of four React state slots (status, error,
report, audioUrl).  The async pipeline processAudioFile is embedded as a
step machine whose points are the `await` suspension points of the source;
running all steps in sequence is the uninterrupted execution, and user
actions such as reset may be interposed between steps, exactly as the
JavaScript event loop allows.  The remote Gemini calls and the platform
primitive JSON.parse are external: each run is parameterised by the
outcome the environment delivered (a SubmissionEnv record and a
jsonParse function String -> ParseOutcome).
-/

namespace MedScribe

/-- AppStatus enum from src/types.ts. -/
inductive AppStatus
  | IDLE
  | UPLOADING
  | TRANSCRIBING
  | REFINING
  | COMPLETED
  | ERROR
deriving DecidableEq, Repr

/-- StructuredReport interface from src/types.ts: five optional section
strings and the mandatory originalText. -/
structure StructuredReport where
  patientInfo : Option String
  clinicalHistory : Option String
  findings : Option String
  diagnosis : Option String
  plan : Option String
  originalText : String
deriving DecidableEq, Repr

/-- The four React state slots of the App component
(status, error, report, audioUrl). -/
structure AppState where
  status : AppStatus
  error : Option String
  report : Option StructuredReport
  audioUrl : Option String
deriving DecidableEq, Repr

/-- A JavaScript error value as the catch block sees it: its message
property may be absent (none) or any string, including the empty one. -/
structure JsError where
  message : Option String
deriving DecidableEq, Repr

/-- The JavaScript object obtained from a successful JSON.parse of the
structuring response, projected onto the keys the component reads.  The
schema sent to the model lists patientInfo, clinicalHistory, findings,
diagnosis and plan; an originalText key may also occur in the payload and
is modelled so that the spread semantics can be stated. -/
structure JsonPayload where
  patientInfo : Option String
  clinicalHistory : Option String
  findings : Option String
  diagnosis : Option String
  plan : Option String
  originalText : Option String
deriving DecidableEq, Repr

/-- The empty JavaScript object, the result of JSON.parse applied to the
two-character string containing only braces. -/
def emptyJsonPayload : JsonPayload := ⟨none, none, none, none, none, none⟩

/-- Outcome of JSON.parse on a string: a parsed object, or a thrown
SyntaxError. -/
inductive ParseOutcome
  | ok (payload : JsonPayload)
  | thrown
deriving DecidableEq, Repr

/-- The argument passed to JSON.parse in refineMedicalReport:
response.text with the JavaScript default of the empty-object literal
when response.text is absent or the empty string
(the source expression is response.text with a falsy-or fallback). -/
def textOrEmptyObject (respText : Option String) : String :=
  match respText with
  | some s => if s = "" then "\x7b\x7d" else s
  | none => "\x7b\x7d"

/-- The object literal built on the success branch of refineMedicalReport:
all fields of the parsed data, with originalText set to rawText
(spread of data followed by an originalText entry, so any originalText
key of data is overridden). -/
def spreadWithOriginalText (data : JsonPayload) (rawText : String) : StructuredReport :=
  ⟨data.patientInfo, data.clinicalHistory, data.findings, data.diagnosis,
   data.plan, rawText⟩

/-- The fixed fallback report returned by the catch branch of
refineMedicalReport, with the three literal strings from the source. -/
def fallbackReport (rawText : String) : StructuredReport :=
  ⟨none, none,
   some "Error procesando la estructura del reporte.",
   some "No se pudo estructurar la información.",
   some "Por favor revise el texto de la transcripción.",
   rawText⟩

/-- refineMedicalReport from the service module, after the remote call has
resolved with response text respText: JSON.parse the text (with the
empty-object default), and on success spread the data with originalText
set to rawText; if JSON.parse throws, return the fixed fallback report. -/
def refineMedicalReport (jsonParse : String → ParseOutcome)
    (respText : Option String) (rawText : String) : StructuredReport :=
  match jsonParse (textOrEmptyObject respText) with
  | .ok data => spreadWithOriginalText data rawText
  | .thrown => fallbackReport rawText

/-- transcribeAudio from the service module: propagate a rejection of the
remote call; on a resolved response return response.text with the
empty-string default. -/
def transcribeAudio (response : Except JsError (Option String)) :
    Except JsError String :=
  match response with
  | .error e => .error e
  | .ok t => .ok (t.getD "")

/-- The outcomes the environment delivers during one submission: the
object URL created for the file, the result of the base64 encoding step,
and the settlement of each of the two remote generateContent calls
(a rejection, or a resolved response whose text may be absent). -/
structure SubmissionEnv where
  objectUrl : String
  encodeResult : Except JsError String
  transcribeResponse : Except JsError (Option String)
  refineResponse : Except JsError (Option String)
deriving Repr

/-- The error message displayed by the catch block of processAudioFile:
the message property of the error, or the fixed default when that
property is absent or the empty string (falsy-or in the source). -/
def errDisplayMessage (e : JsError) : String :=
  match e.message with
  | some m => if m = "" then "An error occurred during processing." else m
  | none => "An error occurred during processing."

/-- The catch block of processAudioFile: setError with the display
message, then setStatus ERROR. -/
def catchBlock (e : JsError) (s : AppState) : AppState :=
  { s with error := some (errDisplayMessage e), status := .ERROR }

/-- The synchronous prefix of processAudioFile before its first await:
setStatus UPLOADING, setError null, setAudioUrl of the created object
URL. -/
def segStart (env : SubmissionEnv) (s : AppState) : AppState :=
  { s with status := .UPLOADING, error := none, audioUrl := some env.objectUrl }

/-- The suspension points of processAudioFile: which await the coroutine
is parked on (the refine point carries the transcript bound to rawText in
the closure), or completion of the function body. -/
inductive PipelinePoint
  | awaitingEncode
  | awaitingTranscribe
  | awaitingRefine (rawText : String)
  | done
deriving DecidableEq, Repr

/-- One resumption of the processAudioFile coroutine: the code executed
when the awaited operation settles, up to the next await (or the end of
the function).  Returns the next suspension point, the updated component
state, and the list of values assigned to the status slot during this
resumption.  A rejection at any await transfers control to the catch
block. -/
def pipelineStep (jsonParse : String → ParseOutcome) (env : SubmissionEnv) :
    PipelinePoint → AppState → PipelinePoint × AppState × List AppStatus
  | .awaitingEncode, s =>
    match env.encodeResult with
    | .error e => (.done, catchBlock e s, [.ERROR])
    | .ok _ => (.awaitingTranscribe, { s with status := .TRANSCRIBING }, [.TRANSCRIBING])
  | .awaitingTranscribe, s =>
    match transcribeAudio env.transcribeResponse with
    | .error e => (.done, catchBlock e s, [.ERROR])
    | .ok rawText => (.awaitingRefine rawText, { s with status := .REFINING }, [.REFINING])
  | .awaitingRefine rawText, s =>
    match env.refineResponse with
    | .error e => (.done, catchBlock e s, [.ERROR])
    | .ok respText =>
      (.done,
       { s with report := some (refineMedicalReport jsonParse respText rawText),
                status := .COMPLETED },
       [.COMPLETED])
  | .done, s => (.done, s, [])

/-- processAudioFile run to completion with no user action interleaved:
the synchronous prefix followed by every resumption (the body has three
awaits, so three resumptions reach `done` on every path; a resumption at
`done` is a no-op).  Returns the final component state and the full
history of values held by the status slot, starting with its value on
entry. -/
def processAudioFile (jsonParse : String → ParseOutcome) (env : SubmissionEnv)
    (s : AppState) : AppState × List AppStatus :=
  let s1 := segStart env s
  let r1 := pipelineStep jsonParse env .awaitingEncode s1
  let r2 := pipelineStep jsonParse env r1.1 r1.2.1
  let r3 := pipelineStep jsonParse env r2.1 r2.2.1
  (r3.2.1, s.status :: .UPLOADING :: (r1.2.2 ++ r2.2.2 ++ r3.2.2))

/-- reset from src/App.tsx: setStatus IDLE, setReport null,
setAudioUrl null, setError null. -/
def reset (_s : AppState) : AppState :=
  { status := .IDLE, error := none, report := none, audioUrl := none }

/-- The behaviour of the platform JSON.parse on the empty-object literal:
it yields the empty object; any other input of interest here is taken to
throw. -/
def jsonParseOnEmptyObject : String → ParseOutcome :=
  fun s => if s = "\x7b\x7d" then .ok emptyJsonPayload else .thrown

/-- A submission in which every external operation settles successfully:
the transcribe call resolves with transcript T and the structuring call
resolves with the empty-object literal as its text. -/
def staleScenarioEnv : SubmissionEnv :=
  ⟨"blob-url", .ok "base64audio", .ok (some "T"), .ok (some "\x7b\x7d")⟩

/-- The interleaved execution in which the user invokes reset while the
transcribe call is in flight: the synchronous prefix runs, the encode
await resolves (status TRANSCRIBING), the user clicks reset (state back
to IDLE with all slots null), and then the in-flight transcribe call
resolves and the suspended coroutine resumes to completion. -/
def staleScenarioFinal : AppState :=
  let s0 : AppState := ⟨.IDLE, none, none, none⟩
  let s1 := segStart staleScenarioEnv s0
  let r1 := pipelineStep jsonParseOnEmptyObject staleScenarioEnv .awaitingEncode s1
  let s2 := reset r1.2.1
  let r2 := pipelineStep jsonParseOnEmptyObject staleScenarioEnv r1.1 s2
  let r3 := pipelineStep jsonParseOnEmptyObject staleScenarioEnv r2.1 r2.2.1
  r3.2.1

/-- Claim C7: invoking reset from any prior state (any status, report,
error message and audio handle) yields status IDLE with report, error and
audio handle all null. -/
theorem reset_yields_idle_nulls (s : AppState) :
    (reset s).status = .IDLE ∧ (reset s).report = none ∧
    (reset s).error = none ∧ (reset s).audioUrl = none :=
  ⟨rfl, rfl, rfl, rfl⟩

/-- Claim C10: on both the success branch and the fallback branch, the
report returned by the structuring operation has originalText exactly
equal to the rawText argument; any originalText key of the parsed payload
is overridden. -/
theorem refine_originalText_eq_rawText (jsonParse : String → ParseOutcome)
    (respText : Option String) (rawText : String) :
    (refineMedicalReport jsonParse respText rawText).originalText = rawText := by
  unfold refineMedicalReport
  cases jsonParse (textOrEmptyObject respText) <;>
    simp [spreadWithOriginalText, fallbackReport]

/-- Claim C5: for a transcript rawText and a structuring response whose
text is valid JSON parsing to a payload with findings F, diagnosis D and
plan P, the resulting report has originalText = rawText, findings = F,
diagnosis = D and plan = P. -/
theorem refine_round_trip (jsonParse : String → ParseOutcome)
    (s rawText F D P : String) (payload : JsonPayload)
    (hs : s ≠ "") (hp : jsonParse s = .ok payload)
    (hf : payload.findings = some F) (hd : payload.diagnosis = some D)
    (hq : payload.plan = some P) :
    (refineMedicalReport jsonParse (some s) rawText).originalText = rawText ∧
    (refineMedicalReport jsonParse (some s) rawText).findings = some F ∧
    (refineMedicalReport jsonParse (some s) rawText).diagnosis = some D ∧
    (refineMedicalReport jsonParse (some s) rawText).plan = some P := by
  simp [refineMedicalReport, textOrEmptyObject, hs, hp,
        spreadWithOriginalText, hf, hd, hq]

/-- Witness for claim C5 at a concrete parse function, response text and
transcript. -/
theorem refine_round_trip_witness :
    (refineMedicalReport
      (fun t => if t = "j" then .ok ⟨none, none, some "F", some "D", some "P", none⟩
                else .thrown) (some "j") "T").originalText = "T" ∧
    (refineMedicalReport
      (fun t => if t = "j" then .ok ⟨none, none, some "F", some "D", some "P", none⟩
                else .thrown) (some "j") "T").findings = some "F" ∧
    (refineMedicalReport
      (fun t => if t = "j" then .ok ⟨none, none, some "F", some "D", some "P", none⟩
                else .thrown) (some "j") "T").diagnosis = some "D" ∧
    (refineMedicalReport
      (fun t => if t = "j" then .ok ⟨none, none, some "F", some "D", some "P", none⟩
                else .thrown) (some "j") "T").plan = some "P" :=
  refine_round_trip _ "j" "T" "F" "D" "P"
    ⟨none, none, some "F", some "D", some "P", none⟩
    (by decide) (by simp) rfl rfl rfl

/-- Claim C3 counterexample: with the structuring response text absent,
the code parses the empty-object literal, obtains the empty object, and
returns a report whose findings, diagnosis and plan are absent — not the
fixed fallback report the claim requires. -/
theorem structure_shapeless_not_fallback :
    refineMedicalReport jsonParseOnEmptyObject none "T" =
      ⟨none, none, none, none, none, "T"⟩ ∧
    refineMedicalReport jsonParseOnEmptyObject none "T" ≠ fallbackReport "T" :=
  ⟨rfl, by decide⟩

/-- Claim C3 amended: when the structuring response text parses
successfully as JSON (including the empty object arising from absent
response text), the returned report carries exactly the fields of the
parsed payload with originalText set to the real transcript; keys missing
from the payload stay absent rather than being replaced by the fallback
messages, and the fixed fallback report arises only when parsing
throws. -/
theorem structure_parsed_payload_spread (jsonParse : String → ParseOutcome)
    (respText : Option String) (rawText : String) (payload : JsonPayload)
    (hp : jsonParse (textOrEmptyObject respText) = .ok payload) :
    refineMedicalReport jsonParse respText rawText =
      ⟨payload.patientInfo, payload.clinicalHistory, payload.findings,
       payload.diagnosis, payload.plan, rawText⟩ := by
  simp [refineMedicalReport, hp, spreadWithOriginalText]

/-- Witness for the amended claim C3 at the empty-object parse. -/
theorem structure_parsed_payload_spread_witness :
    refineMedicalReport jsonParseOnEmptyObject none "T" =
      ⟨emptyJsonPayload.patientInfo, emptyJsonPayload.clinicalHistory,
       emptyJsonPayload.findings, emptyJsonPayload.diagnosis,
       emptyJsonPayload.plan, "T"⟩ :=
  structure_parsed_payload_spread jsonParseOnEmptyObject none "T"
    emptyJsonPayload (by decide)

/-- Claim C1: when the encode and transcribe steps succeed, the
structuring call resolves, and JSON.parse of its response text throws,
the submission ends in COMPLETED (not ERROR) with the fixed fallback
report whose originalText is the transcript returned by
transcription. -/
theorem pipeline_parse_throw_completed_fallback
    (jsonParse : String → ParseOutcome) (env : SubmissionEnv) (s : AppState)
    (b64 : String) (he : env.encodeResult = .ok b64)
    (rawText : String) (ht : transcribeAudio env.transcribeResponse = .ok rawText)
    (respText : Option String) (hr : env.refineResponse = .ok respText)
    (hp : jsonParse (textOrEmptyObject respText) = .thrown) :
    (processAudioFile jsonParse env s).1.status = .COMPLETED ∧
    (processAudioFile jsonParse env s).1.report = some (fallbackReport rawText) := by
  simp [processAudioFile, segStart, pipelineStep, refineMedicalReport,
        he, ht, hr, hp]

/-- Witness for claim C1 at a concrete environment whose structuring
response text does not parse. -/
theorem pipeline_parse_throw_completed_fallback_witness :
    (processAudioFile (fun _ => .thrown)
      ⟨"u", .ok "b", .ok (some "T"), .ok (some "not json")⟩
      ⟨.IDLE, none, none, none⟩).1.status = .COMPLETED ∧
    (processAudioFile (fun _ => .thrown)
      ⟨"u", .ok "b", .ok (some "T"), .ok (some "not json")⟩
      ⟨.IDLE, none, none, none⟩).1.report = some (fallbackReport "T") :=
  pipeline_parse_throw_completed_fallback (fun _ => .thrown)
    ⟨"u", .ok "b", .ok (some "T"), .ok (some "not json")⟩
    ⟨.IDLE, none, none, none⟩ "b" rfl "T" rfl (some "not json") rfl rfl

/-- Claim C4: starting from IDLE, when the encode, transcribe and
structuring operations all resolve, the status slot takes exactly the
values IDLE, UPLOADING, TRANSCRIBING, REFINING, COMPLETED in that
order. -/
theorem pipeline_happy_path_trace
    (jsonParse : String → ParseOutcome) (env : SubmissionEnv) (s : AppState)
    (h0 : s.status = .IDLE)
    (b64 : String) (he : env.encodeResult = .ok b64)
    (t : Option String) (ht : env.transcribeResponse = .ok t)
    (rt : Option String) (hr : env.refineResponse = .ok rt) :
    (processAudioFile jsonParse env s).2 =
      [.IDLE, .UPLOADING, .TRANSCRIBING, .REFINING, .COMPLETED] := by
  simp [processAudioFile, segStart, pipelineStep, transcribeAudio,
        h0, he, ht, hr]

/-- Witness for claim C4 at a concrete fully successful environment. -/
theorem pipeline_happy_path_trace_witness :
    (processAudioFile jsonParseOnEmptyObject
      ⟨"u", .ok "b", .ok (some "T"), .ok (some "\x7b\x7d")⟩
      ⟨.IDLE, none, none, none⟩).2 =
      [.IDLE, .UPLOADING, .TRANSCRIBING, .REFINING, .COMPLETED] :=
  pipeline_happy_path_trace jsonParseOnEmptyObject
    ⟨"u", .ok "b", .ok (some "T"), .ok (some "\x7b\x7d")⟩
    ⟨.IDLE, none, none, none⟩ rfl "b" rfl (some "T") rfl (some "\x7b\x7d") rfl

/-- Claim C6: when the encode step succeeds and the transcribe call
rejects, the final state is ERROR and the displayed message is the
rejection message, or the fixed default when that message is absent or
empty. -/
theorem pipeline_transcribe_reject_error_message
    (jsonParse : String → ParseOutcome) (env : SubmissionEnv) (s : AppState)
    (b64 : String) (he : env.encodeResult = .ok b64)
    (e : JsError) (ht : env.transcribeResponse = .error e) :
    (processAudioFile jsonParse env s).1.status = .ERROR ∧
    (processAudioFile jsonParse env s).1.error = some (errDisplayMessage e) := by
  simp [processAudioFile, segStart, pipelineStep, transcribeAudio,
        catchBlock, he, ht]

/-- Witness for claim C6 at a rejection carrying the empty message, which
is displayed as the fixed default text. -/
theorem pipeline_transcribe_reject_error_message_witness :
    ((processAudioFile jsonParseOnEmptyObject
      ⟨"u", .ok "b", .error ⟨some ""⟩, .ok none⟩
      ⟨.IDLE, none, none, none⟩).1.status = .ERROR ∧
    (processAudioFile jsonParseOnEmptyObject
      ⟨"u", .ok "b", .error ⟨some ""⟩, .ok none⟩
      ⟨.IDLE, none, none, none⟩).1.error = some (errDisplayMessage ⟨some ""⟩)) ∧
    errDisplayMessage ⟨some ""⟩ = "An error occurred during processing." :=
  ⟨pipeline_transcribe_reject_error_message jsonParseOnEmptyObject
    ⟨"u", .ok "b", .error ⟨some ""⟩, .ok none⟩
    ⟨.IDLE, none, none, none⟩ "b" rfl ⟨some ""⟩ rfl, rfl⟩

/-- Claim C8: when the transcribe operation resolves with the empty
string, the resumption after that await does not enter ERROR; it sets
status REFINING and parks on the structuring await with the empty
transcript as rawText. -/
theorem empty_transcript_continues
    (jsonParse : String → ParseOutcome) (env : SubmissionEnv) (s : AppState)
    (ht : transcribeAudio env.transcribeResponse = .ok "") :
    pipelineStep jsonParse env .awaitingTranscribe s =
      (.awaitingRefine "", { s with status := .REFINING }, [.REFINING]) := by
  simp [pipelineStep, ht]

/-- Witness for claim C8: a resolved response with absent text yields the
empty transcript and the pipeline proceeds to the structuring await. -/
theorem empty_transcript_continues_witness :
    pipelineStep jsonParseOnEmptyObject ⟨"u", .ok "b", .ok none, .ok none⟩
      .awaitingTranscribe ⟨.TRANSCRIBING, none, none, some "u"⟩ =
      (.awaitingRefine "",
       { (⟨.TRANSCRIBING, none, none, some "u"⟩ : AppState) with status := .REFINING },
       [.REFINING]) :=
  empty_transcript_continues jsonParseOnEmptyObject
    ⟨"u", .ok "b", .ok none, .ok none⟩ ⟨.TRANSCRIBING, none, none, some "u"⟩ rfl

/-- Claim C9: starting with a null report slot, if any awaited operation
(encode, transcribe or the structuring call) rejects, the final state is
ERROR and the report slot is still null. -/
theorem pipeline_reject_keeps_report_null
    (jsonParse : String → ParseOutcome) (env : SubmissionEnv) (s : AppState)
    (h0 : s.report = none)
    (hrej : (∃ e, env.encodeResult = .error e) ∨
            (∃ e, env.transcribeResponse = .error e) ∨
            (∃ e, env.refineResponse = .error e)) :
    (processAudioFile jsonParse env s).1.status = .ERROR ∧
    (processAudioFile jsonParse env s).1.report = none := by
  rcases hrej with ⟨e, he⟩ | ⟨e, he⟩ | ⟨e, he⟩
  · simp [processAudioFile, segStart, pipelineStep, catchBlock, he, h0]
  · cases henc : env.encodeResult with
    | error e2 =>
      simp [processAudioFile, segStart, pipelineStep, catchBlock, henc, h0]
    | ok b64 =>
      simp [processAudioFile, segStart, pipelineStep, transcribeAudio,
            catchBlock, henc, he, h0]
  · cases henc : env.encodeResult with
    | error e2 =>
      simp [processAudioFile, segStart, pipelineStep, catchBlock, henc, h0]
    | ok b64 =>
      cases htr : env.transcribeResponse with
      | error e3 =>
        simp [processAudioFile, segStart, pipelineStep, transcribeAudio,
              catchBlock, henc, htr, h0]
      | ok t =>
        simp [processAudioFile, segStart, pipelineStep, transcribeAudio,
              catchBlock, henc, htr, he, h0]

/-- Witness for claim C9 at a concrete environment whose structuring call
rejects. -/
theorem pipeline_reject_keeps_report_null_witness :
    (⟨.IDLE, none, none, none⟩ : AppState).report = none ∧
    ((processAudioFile jsonParseOnEmptyObject
      ⟨"u", .ok "b", .ok (some "T"), .error ⟨none⟩⟩
      ⟨.IDLE, none, none, none⟩).1.status = .ERROR ∧
    (processAudioFile jsonParseOnEmptyObject
      ⟨"u", .ok "b", .ok (some "T"), .error ⟨none⟩⟩
      ⟨.IDLE, none, none, none⟩).1.report = none) :=
  ⟨rfl, pipeline_reject_keeps_report_null jsonParseOnEmptyObject
    ⟨"u", .ok "b", .ok (some "T"), .error ⟨none⟩⟩
    ⟨.IDLE, none, none, none⟩ rfl (Or.inr (Or.inr ⟨⟨none⟩, rfl⟩))⟩

/-- Claim C2 evaluated on the code: reset is invoked while the transcribe
call is in flight (state back to IDLE), yet when the in-flight call
resolves the resumed coroutine drives the status to REFINING and then
COMPLETED and installs the stale report — the state does not remain IDLE
and the result is not discarded. -/
theorem stale_result_installed_after_reset :
    staleScenarioFinal.status = .COMPLETED ∧
    staleScenarioFinal.status ≠ .IDLE ∧
    staleScenarioFinal.report = some ⟨none, none, none, none, none, "T"⟩ :=
  ⟨rfl, by decide, rfl⟩

end MedScribe
